import Mathlib

/-!
Shallow embedding of the jebella admin-panel CRUD screens.

Strings are modelled by Lean `String`, but the JavaScript string operations
used by the pages (`trim`, `toLowerCase`, substring containment) are
re-implemented over the underlying character list so that every definition
evaluates inside the kernel.  Timestamps are abstract `Nat` ticks and row ids
are `Nat`.  The hosted backend is modelled as the list of rows of one table;
the PostgREST query pipeline used by every page
(`.eq` on `is_deleted`, optional `.ilike`, `.order`, `.range`) becomes
filter / sort / slice on that list.  Each mutating handler additionally
returns the list of network requests it issued, so that requests sent (or not
sent) before a validation failure are observable.
-/

/-- JS `String.prototype.trim` whitespace (the characters the admin pages can
actually contain). -/
def isJsSpace (c : Char) : Bool :=
  c == ' ' || c == '\t' || c == '\n' || c == '\r'

def trimChars (l : List Char) : List Char :=
  ((l.dropWhile isJsSpace).reverse.dropWhile isJsSpace).reverse

/-- JS `s.trim()`. -/
def jsTrim (s : String) : String := ⟨trimChars s.data⟩

def lowerChar (c : Char) : Char :=
  if 'A' ≤ c && c ≤ 'Z' then Char.ofNat (c.toNat + 32) else c

/-- JS `s.toLowerCase()` restricted to ASCII, which is all the pages use. -/
def jsToLower (s : String) : String := ⟨s.data.map lowerChar⟩

/-- `needle` occurs as a contiguous run inside `hay`. -/
def hasSub (needle : List Char) : List Char → Bool
  | [] => needle.isEmpty
  | c :: t => needle.isPrefixOf (c :: t) || hasSub needle t

/-- PostgREST `.ilike(field, %pat%)`: case-insensitive substring match. -/
def ilikeContains (field pat : String) : Bool :=
  hasSub (jsToLower pat).data (jsToLower field).data

/-- Insertion step of the sort used to model the backend `order` clause. -/
def insertSorted {α : Type} (le : α → α → Bool) (a : α) : List α → List α
  | [] => [a]
  | b :: t => if le a b then a :: b :: t else b :: insertSorted le a t

/-- Executable sort modelling the backend `order` clause. -/
def sortBy {α : Type} (le : α → α → Bool) : List α → List α
  | [] => []
  | a :: t => insertSorted le a (sortBy le t)

/-- `.order(col, { ascending: false })` on a `Nat`-valued key. -/
def orderDescBy {α : Type} (key : α → Nat) (l : List α) : List α :=
  sortBy (fun a b => decide (key b ≤ key a)) l

/-- All pages use `itemsPerPage = 10`. -/
def itemsPerPage : Nat := 10

/-- `.range((page-1)*itemsPerPage, page*itemsPerPage - 1)`: the bounded slice
the backend returns (PostgREST applies `order` before `range`). -/
def pageSlice {α : Type} (page : Nat) (l : List α) : List α :=
  (l.drop ((page - 1) * itemsPerPage)).take itemsPerPage

/-- `Math.ceil((count || 0) / itemsPerPage)`. -/
def totalPagesOf (count : Nat) : Nat :=
  (count + itemsPerPage - 1) / itemsPerPage

/-- Field values appearing in insert/update payloads. -/
inductive Value : Type
  | str (s : String)
  | nat (n : Nat)
  | bool (b : Bool)
deriving DecidableEq, Repr

/-- A network request issued by a handler, with the payload rows carry. -/
inductive Req : Type
  | selectQ (table : String)
  | insertQ (table : String) (fields : List (String × Value))
  | updateQ (table : String) (fields : List (String × Value))
deriving DecidableEq, Repr

/-- Outcome reported to the user by an add/edit handler (each constructor is
one of the toast branches of the handlers). -/
inductive Outcome : Type
  | nameRequired
  | hexRequired
  | invalidHex
  | categoryRequired
  | duplicateName
  | success
deriving DecidableEq, Repr

/-- The `currentPage` / `totalPages` component state every list screen keeps. -/
structure PageState : Type where
  currentPage : Nat
  totalPages : Nat
deriving DecidableEq, Repr

/-- Both counters are initialised to 1 on every screen. -/
def initialPageState : PageState := ⟨1, 1⟩

theorem insertSorted_cons {α : Type} (le : α → α → Bool) (a b : α) (t : List α) :
    insertSorted le a (b :: t) =
      if le a b then a :: b :: t else b :: insertSorted le a t := rfl

theorem mem_insertSorted {α : Type} (le : α → α → Bool) (a x : α) :
    ∀ l : List α, x ∈ insertSorted le a l ↔ x = a ∨ x ∈ l := by
  intro l
  induction l with
  | nil => simp [insertSorted]
  | cons b t ih =>
      by_cases h : le a b = true
      · rw [insertSorted_cons, if_pos h]
        simp
      · rw [insertSorted_cons, if_neg h]
        simp only [List.mem_cons, ih]
        tauto

theorem mem_sortBy {α : Type} (le : α → α → Bool) (x : α) :
    ∀ l : List α, x ∈ sortBy le l ↔ x ∈ l := by
  intro l
  induction l with
  | nil => simp [sortBy]
  | cons a t ih => simp [sortBy, mem_insertSorted, ih]

theorem pageSlice_sublist {α : Type} (page : Nat) (l : List α) :
    (pageSlice page l).Sublist l :=
  (List.take_sublist _ _).trans (List.drop_sublist _ _)

theorem mem_pageSlice {α : Type} {page : Nat} {l : List α} {x : α}
    (h : x ∈ pageSlice page l) : x ∈ l :=
  (pageSlice_sublist page l).subset h

namespace Colors

/-- A row of the `colors` table.  The page only declares and edits
`id/name/hex_code/is_deleted/created_at/updated_at`; `category` and
`display_order` exist in the table per the migration
`20240320000005_improve_colors.sql` (with defaults `primary` and 0) but are
never read or written by the page. -/
structure ColorRow : Type where
  id : Nat
  name : String
  hex_code : String
  category : String
  display_order : Nat
  is_deleted : Bool
  created_at : Nat
  updated_at : Nat
deriving DecidableEq, Repr

/-- The filter part of `fetchColors`: `.eq(is_deleted, false)` plus
`.ilike(name, %searchQuery%)` when `searchQuery` is truthy (non-empty). -/
def matchedColors (db : List ColorRow) (searchQuery : String) : List ColorRow :=
  let base := db.filter (fun r => r.is_deleted == false)
  if searchQuery.data.isEmpty then base
  else base.filter (fun r => ilikeContains r.name searchQuery)

/-- `fetchColors`: query, then `colors = data`, `totalPages = ceil(count/10)`;
`currentPage` is not modified. -/
def fetchColors (db : List ColorRow) (st : PageState) (searchQuery : String) :
    List ColorRow × PageState :=
  let matched := matchedColors db searchQuery
  (pageSlice st.currentPage (orderDescBy (fun r => r.created_at) matched),
   { st with totalPages := totalPagesOf matched.length })

/-- `handlePageChange(page)`: unconditionally `currentPage = page` then
`fetchColors()` (which issues the select). -/
def handlePageChange (db : List ColorRow) (st : PageState) (searchQuery : String)
    (page : Nat) : (List ColorRow × PageState) × List Req :=
  (fetchColors db { st with currentPage := page } searchQuery, [Req.selectQ "colors"])

/-- `validateHexCode`: the regex test for `#RGB` / `#RRGGBB`. -/
def isHexDigitChar (c : Char) : Bool :=
  ('0' ≤ c && c ≤ '9') || ('a' ≤ c && c ≤ 'f') || ('A' ≤ c && c ≤ 'F')

/-- `/^#([A-Fa-f0-9]{6}|[A-Fa-f0-9]{3})$/.test(hex)`: a leading `#`, then
exactly six or exactly three hex digits, nothing else. -/
def validateHexCode (hex : String) : Bool :=
  match hex.data with
  | c :: rest =>
      c == '#' && (rest.length == 6 || rest.length == 3) &&
        rest.all isHexDigitChar
  | [] => false

/-- The add-modal draft: the page has no category input at all. -/
structure NewColor : Type where
  name : String
  hex_code : String
deriving DecidableEq, Repr

/-- `handleAddColor`.  The duplicate pre-check selects by `name` and
`is_deleted = false` only, with `.single()`: exactly one matching row yields
`existingColor`; zero rows (and likewise several rows) yield error code
PGRST116, which the handler deliberately ignores, leaving `existingColor`
null.  The insert sends only name / hex_code / is_deleted, so the database
fills `category` with its default `primary` and `display_order` with 0. -/
def handleAddColor (db : List ColorRow) (draft : NewColor) (freshId now : Nat) :
    Outcome × List ColorRow × List Req :=
  if (jsTrim draft.name).data.isEmpty then (.nameRequired, db, [])
  else if (jsTrim draft.hex_code).data.isEmpty then (.hexRequired, db, [])
  else if !validateHexCode (jsTrim draft.hex_code) then (.invalidHex, db, [])
  else
    let existing := db.filter
      (fun r => r.name == jsTrim draft.name && r.is_deleted == false)
    if existing.length == 1 then (.duplicateName, db, [Req.selectQ "colors"])
    else
      let row : ColorRow :=
        { id := freshId, name := jsTrim draft.name,
          hex_code := jsTrim draft.hex_code, category := "primary",
          display_order := 0, is_deleted := false,
          created_at := now, updated_at := now }
      (.success, db ++ [row],
       [Req.selectQ "colors",
        Req.insertQ "colors"
          [("name", Value.str (jsTrim draft.name)),
           ("hex_code", Value.str (jsTrim draft.hex_code)),
           ("is_deleted", Value.bool false)]])

/-- `handleEditColor` on `selectedColor`: same validations, pre-check
additionally excludes the row's own id (`.neq(id, ...)`), update payload sets
`name`, `hex_code` and `updated_at = new Date().toISOString()`. -/
def handleEditColor (db : List ColorRow) (sel : ColorRow) (now : Nat) :
    Outcome × List ColorRow × List Req :=
  if (jsTrim sel.name).data.isEmpty then (.nameRequired, db, [])
  else if (jsTrim sel.hex_code).data.isEmpty then (.hexRequired, db, [])
  else if !validateHexCode (jsTrim sel.hex_code) then (.invalidHex, db, [])
  else
    let existing := db.filter
      (fun r => r.name == jsTrim sel.name && r.is_deleted == false && r.id != sel.id)
    if existing.length == 1 then (.duplicateName, db, [Req.selectQ "colors"])
    else
      (.success,
       db.map (fun r =>
         if r.id == sel.id then
           { r with name := jsTrim sel.name, hex_code := jsTrim sel.hex_code,
                    updated_at := now }
         else r),
       [Req.selectQ "colors",
        Req.updateQ "colors"
          [("name", Value.str (jsTrim sel.name)),
           ("hex_code", Value.str (jsTrim sel.hex_code)),
           ("updated_at", Value.nat now)]])

/-- `handleDeleteColor` after the confirmation prompt: an update setting
`is_deleted = true` on the row with the given id — never a row deletion. -/
def handleDeleteColor (db : List ColorRow) (colorId : Nat) :
    List ColorRow × List Req :=
  (db.map (fun r => if r.id == colorId then { r with is_deleted := true } else r),
   [Req.updateQ "colors" [("is_deleted", Value.bool true)]])

end Colors

/-! ## src/routes/admin/brands/+page.svelte (the paginated brands screen) -/

namespace Brands

/-- A row of the `brands` table as the page declares it. -/
structure BrandRow : Type where
  id : Nat
  name : String
  description : String
  logo_url : String
  is_deleted : Bool
  created_at : Nat
  updated_at : Nat
deriving DecidableEq, Repr

/-- The filter part of `fetchBrands`. -/
def matchedBrands (db : List BrandRow) (searchQuery : String) : List BrandRow :=
  let base := db.filter (fun r => r.is_deleted == false)
  if searchQuery.data.isEmpty then base
  else base.filter (fun r => ilikeContains r.name searchQuery)

/-- `fetchBrands`: same pipeline as the colors screen. -/
def fetchBrands (db : List BrandRow) (st : PageState) (searchQuery : String) :
    List BrandRow × PageState :=
  let matched := matchedBrands db searchQuery
  (pageSlice st.currentPage (orderDescBy (fun r => r.created_at) matched),
   { st with totalPages := totalPagesOf matched.length })

/-- The add-modal draft of the brands screen. -/
structure NewBrand : Type where
  name : String
  description : String
  logo_url : String
deriving DecidableEq, Repr

/-- `handleAddBrand` of the paginated brands screen: name required, duplicate
pre-check on `name` + `is_deleted = false` with `.single()` (one matching row
means duplicate; zero or several mean the PGRST116 branch, which is ignored),
then the insert. -/
def handleAddBrand (db : List BrandRow) (draft : NewBrand) (freshId now : Nat) :
    Outcome × List BrandRow × List Req :=
  if (jsTrim draft.name).data.isEmpty then (.nameRequired, db, [])
  else
    let existing := db.filter
      (fun r => r.name == jsTrim draft.name && r.is_deleted == false)
    if existing.length == 1 then (.duplicateName, db, [Req.selectQ "brands"])
    else
      let row : BrandRow :=
        { id := freshId, name := jsTrim draft.name,
          description := jsTrim draft.description,
          logo_url := jsTrim draft.logo_url, is_deleted := false,
          created_at := now, updated_at := now }
      (.success, db ++ [row],
       [Req.selectQ "brands",
        Req.insertQ "brands"
          [("name", Value.str (jsTrim draft.name)),
           ("description", Value.str (jsTrim draft.description)),
           ("logo_url", Value.str (jsTrim draft.logo_url)),
           ("is_deleted", Value.bool false)]])

/-- `handleEditBrand`: pre-check excluding the row's own id, update payload
with `updated_at = new Date().toISOString()`. -/
def handleEditBrand (db : List BrandRow) (sel : BrandRow) (now : Nat) :
    Outcome × List BrandRow × List Req :=
  if (jsTrim sel.name).data.isEmpty then (.nameRequired, db, [])
  else
    let existing := db.filter
      (fun r => r.name == jsTrim sel.name && r.is_deleted == false && r.id != sel.id)
    if existing.length == 1 then (.duplicateName, db, [Req.selectQ "brands"])
    else
      (.success,
       db.map (fun r =>
         if r.id == sel.id then
           { r with name := jsTrim sel.name,
                    description := jsTrim sel.description,
                    logo_url := jsTrim sel.logo_url, updated_at := now }
         else r),
       [Req.selectQ "brands",
        Req.updateQ "brands"
          [("name", Value.str (jsTrim sel.name)),
           ("description", Value.str (jsTrim sel.description)),
           ("logo_url", Value.str (jsTrim sel.logo_url)),
           ("updated_at", Value.nat now)]])

end Brands

/-! ## The second brands screen (src/unnamed/part_002): no pagination and,
crucially, no duplicate pre-check in its `handleAddBrand`. -/

namespace BrandsSimple

/-- `loadBrands` of the second brands screen: no search, no range. -/
def loadBrands (db : List Brands.BrandRow) : List Brands.BrandRow :=
  orderDescBy (fun r => r.created_at)
    (db.filter (fun r => r.is_deleted == false))

/-- `handleAddBrand` of the second brands screen: no required-name check and
no duplicate pre-check — it inserts unconditionally (fields untrimmed). -/
def handleAddBrand (db : List Brands.BrandRow) (draft : Brands.NewBrand)
    (freshId now : Nat) : Outcome × List Brands.BrandRow × List Req :=
  let row : Brands.BrandRow :=
    { id := freshId, name := draft.name, description := draft.description,
      logo_url := draft.logo_url, is_deleted := false,
      created_at := now, updated_at := now }
  (.success, db ++ [row],
   [Req.insertQ "brands"
      [("name", Value.str draft.name),
       ("description", Value.str draft.description),
       ("logo_url", Value.str draft.logo_url),
       ("is_deleted", Value.bool false)]])

end BrandsSimple

/-! ## The audiences screen (src/unnamed/part_000) -/

namespace Audiences

/-- A row of the `audiences` table. -/
structure AudienceRow : Type where
  id : Nat
  name : String
  is_deleted : Bool
  created_at : Nat
  updated_at : Nat
deriving DecidableEq, Repr

/-- The filter part of `fetchAudiences`. -/
def matchedAudiences (db : List AudienceRow) (searchQuery : String) :
    List AudienceRow :=
  let base := db.filter (fun r => r.is_deleted == false)
  if searchQuery.data.isEmpty then base
  else base.filter (fun r => ilikeContains r.name searchQuery)

/-- `fetchAudiences`: same pipeline as the colors screen. -/
def fetchAudiences (db : List AudienceRow) (st : PageState)
    (searchQuery : String) : List AudienceRow × PageState :=
  let matched := matchedAudiences db searchQuery
  (pageSlice st.currentPage (orderDescBy (fun r => r.created_at) matched),
   { st with totalPages := totalPagesOf matched.length })

end Audiences

/-! ## src/routes/admin/subcategories/+page.svelte -/

namespace Subcategories

/-- A row of the `subcategories` table. -/
structure SubcategoryRow : Type where
  id : Nat
  name : String
  category_id : Nat
  is_deleted : Bool
  created_at : Nat
  updated_at : Nat
deriving DecidableEq, Repr

/-- The filter part of `loadSubcategories`. -/
def matchedSubcategories (db : List SubcategoryRow) (searchQuery : String) :
    List SubcategoryRow :=
  let base := db.filter (fun r => r.is_deleted == false)
  if searchQuery.data.isEmpty then base
  else base.filter (fun r => ilikeContains r.name searchQuery)

/-- `loadSubcategories`: same pipeline as the colors screen. -/
def loadSubcategories (db : List SubcategoryRow) (st : PageState)
    (searchQuery : String) : List SubcategoryRow × PageState :=
  let matched := matchedSubcategories db searchQuery
  (pageSlice st.currentPage (orderDescBy (fun r => r.created_at) matched),
   { st with totalPages := totalPagesOf matched.length })

/-- `handleEditSubcategory` on `selectedSubcategory`: name required and a
category must be selected (the page's `!category_id` truthiness check; the
unselected state is modelled by `category_id = 0`); the duplicate pre-check
is scoped to (name, category_id), excludes the row's own id and uses
`.single()` (exactly one matching row means duplicate; zero or several mean
the ignored PGRST116 branch); the update payload sets `name`, `category_id`
and `updated_at = new Date().toISOString()`. -/
def handleEditSubcategory (db : List SubcategoryRow) (sel : SubcategoryRow)
    (now : Nat) : Outcome × List SubcategoryRow × List Req :=
  if (jsTrim sel.name).data.isEmpty then (.nameRequired, db, [])
  else if sel.category_id == 0 then (.categoryRequired, db, [])
  else
    let existing := db.filter (fun r =>
      r.name == jsTrim sel.name && r.category_id == sel.category_id &&
        r.is_deleted == false && r.id != sel.id)
    if existing.length == 1 then
      (.duplicateName, db, [Req.selectQ "subcategories"])
    else
      (.success,
       db.map (fun r =>
         if r.id == sel.id then
           { r with name := jsTrim sel.name, category_id := sel.category_id,
                    updated_at := now }
         else r),
       [Req.selectQ "subcategories",
        Req.updateQ "subcategories"
          [("name", Value.str (jsTrim sel.name)),
           ("category_id", Value.nat sel.category_id),
           ("updated_at", Value.nat now)]])

/-- `handleDeleteSubcategory` after the confirmation prompt: an update setting
`is_deleted = true`, never a row deletion. -/
def handleDeleteSubcategory (db : List SubcategoryRow) (subcategoryId : Nat) :
    List SubcategoryRow × List Req :=
  (db.map (fun r =>
     if r.id == subcategoryId then { r with is_deleted := true } else r),
   [Req.updateQ "subcategories" [("is_deleted", Value.bool true)]])

end Subcategories

/-! ## The sellers screen (src/unnamed/part_001) -/

namespace Sellers

/-- A row of the `users` table as the sellers screen uses it. -/
structure SellerRow : Type where
  id : Nat
  name : String
  gender : String
  age : Nat
  user_type : String
  status : String
  is_deleted : Bool
  created_at : Nat
  updated_at : Nat
deriving DecidableEq, Repr

/-- The filter both queries of `loadSellers` share:
`.eq(user_type, seller).eq(is_deleted, false)`. -/
def sellerMatches (db : List SellerRow) : List SellerRow :=
  db.filter (fun r => r.user_type == "seller" && r.is_deleted == false)

/-- `loadSellers`: a count query sets
`totalPages = Math.ceil(totalItems / itemsPerPage)`, then the data query
returns the `created_at`-descending page slice.  Two selects are issued. -/
def loadSellers (db : List SellerRow) (st : PageState) :
    (List SellerRow × PageState) × List Req :=
  let m := sellerMatches db
  ((pageSlice st.currentPage (orderDescBy (fun r => r.created_at) m),
    { st with totalPages := totalPagesOf m.length }),
   [Req.selectQ "users", Req.selectQ "users"])

/-- The edit-form data of the sellers screen. -/
structure SellerFormData : Type where
  id : Nat
  email : String
  name : String
  gender : String
  age : Nat
deriving DecidableEq, Repr

/-- The update payload `handleEditSeller` sends: name, gender and age only —
it does not set `updated_at`. -/
def sellerUpdateFields (formData : SellerFormData) : List (String × Value) :=
  [("name", Value.str formData.name),
   ("gender", Value.str formData.gender),
   ("age", Value.nat formData.age)]

/-- `handleEditSeller`: no validation, no pre-check; one update request on
`users` with the payload above, then `loadSellers()`. -/
def handleEditSeller (db : List SellerRow) (formData : SellerFormData) :
    List SellerRow × List Req :=
  (db.map (fun r =>
     if r.id == formData.id then
       { r with name := formData.name, gender := formData.gender,
                age := formData.age }
     else r),
   [Req.updateQ "users" (sellerUpdateFields formData)])

/-- The Previous button is rendered with `disabled={currentPage === 1}`; a
click on the enabled button runs `currentPage--; loadSellers()`. -/
def prevClick (db : List SellerRow) (st : PageState) : PageState × List Req :=
  if st.currentPage == 1 then (st, [])
  else
    let st1 : PageState := { st with currentPage := st.currentPage - 1 }
    ((loadSellers db st1).1.2, (loadSellers db st1).2)

/-- The Next button is rendered with `disabled={currentPage === totalPages}`;
a click on the enabled button runs `currentPage++; loadSellers()`. -/
def nextClick (db : List SellerRow) (st : PageState) : PageState × List Req :=
  if st.currentPage == st.totalPages then (st, [])
  else
    let st1 : PageState := { st with currentPage := st.currentPage + 1 }
    ((loadSellers db st1).1.2, (loadSellers db st1).2)

end Sellers

/-! ## src/lib/components/ImageUpload.svelte — the file holds two component
implementations: the first validates in `handleFile`, the second in
`validateAndProcessFile`. -/

namespace ImageUpload

/-- The part of a browser `File` the component inspects. -/
structure JsFile : Type where
  type : String
  size : Nat
deriving DecidableEq, Repr

/-- Which rejection branch fired. -/
inductive Reject : Type
  | tooLarge
  | notImage
deriving DecidableEq, Repr

/-- The observable outputs of the component: an error surfaced to the caller
(dispatched `error` event in the first implementation, error toast in the
second) or the dispatched `fileSelect` event. -/
inductive PickerEvent : Type
  | errorEv (reason : Reject)
  | fileSelectEv
deriving DecidableEq, Repr

/-- `file.type.startsWith(image/)`. -/
def startsWithImage (t : String) : Bool :=
  List.isPrefixOf "image/".data t.data

/-- `export let maxSize = 1048576; // 1MB`. -/
def defaultMaxSize : Nat := 1048576

/-- `handleFile` (first implementation, lines 53–76): the size check runs
first, then the type check; each rejection emits one error and returns. -/
def handleFile (maxSize : Nat) (file : JsFile) : List PickerEvent :=
  if file.size > maxSize then [PickerEvent.errorEv Reject.tooLarge]
  else if !startsWithImage file.type then [PickerEvent.errorEv Reject.notImage]
  else [PickerEvent.fileSelectEv]

/-- `validateAndProcessFile` (second implementation, lines 311–332): the type
check runs first, then the size check. -/
def validateAndProcessFile (maxSize : Nat) (file : JsFile) : List PickerEvent :=
  if !startsWithImage file.type then [PickerEvent.errorEv Reject.notImage]
  else if file.size > maxSize then [PickerEvent.errorEv Reject.tooLarge]
  else [PickerEvent.fileSelectEv]

end ImageUpload

/-! ## Claim theorems -/

/-- If `find?` succeeds on a list, it succeeds on the mapped list with the
mapped element, provided the predicate is invariant under the map. -/
theorem find?_map_of_pred_invariant {α : Type} (p : α → Bool) (f : α → α)
    (hp : ∀ a, p (f a) = p a) :
    ∀ {l : List α} {row : α}, l.find? p = some row →
      (l.map f).find? p = some (f row) := by
  intro l
  induction l with
  | nil => intro row h; simp at h
  | cons s t ih =>
      intro row h
      by_cases hs : p s = true
      · rw [List.find?_cons_of_pos _ hs] at h
        injection h with h
        subst h
        rw [List.map_cons, List.find?_cons_of_pos _ (by rw [hp]; exact hs)]
      · have hs0 : ¬ p s = true := hs
        rw [List.find?_cons_of_neg _ hs0] at h
        rw [List.map_cons, List.find?_cons_of_neg _ (by rw [hp]; exact hs0)]
        exact ih h

/-- C2: on every entity screen, for every page state and search query, the
rows returned by the load query all have `is_deleted = false`: the colors,
brands, audiences, subcategories and sellers screens. -/
theorem C2_load_excludes_soft_deleted :
    (∀ (db : List Colors.ColorRow) (st : PageState) (q : String)
        (r : Colors.ColorRow),
        r ∈ (Colors.fetchColors db st q).1 → r.is_deleted = false) ∧
    (∀ (db : List Brands.BrandRow) (st : PageState) (q : String)
        (r : Brands.BrandRow),
        r ∈ (Brands.fetchBrands db st q).1 → r.is_deleted = false) ∧
    (∀ (db : List Audiences.AudienceRow) (st : PageState) (q : String)
        (r : Audiences.AudienceRow),
        r ∈ (Audiences.fetchAudiences db st q).1 → r.is_deleted = false) ∧
    (∀ (db : List Subcategories.SubcategoryRow) (st : PageState) (q : String)
        (r : Subcategories.SubcategoryRow),
        r ∈ (Subcategories.loadSubcategories db st q).1 → r.is_deleted = false) ∧
    (∀ (db : List Sellers.SellerRow) (st : PageState) (r : Sellers.SellerRow),
        r ∈ (Sellers.loadSellers db st).1.1 → r.is_deleted = false) := by
  refine ⟨?_, ?_, ?_, ?_, ?_⟩
  · intro db st q r hr
    simp only [Colors.fetchColors] at hr
    have h2 := (mem_sortBy _ r _).mp (mem_pageSlice hr)
    simp only [Colors.matchedColors] at h2
    split at h2 <;> simp only [List.mem_filter, beq_iff_eq] at h2 <;> tauto
  · intro db st q r hr
    simp only [Brands.fetchBrands] at hr
    have h2 := (mem_sortBy _ r _).mp (mem_pageSlice hr)
    simp only [Brands.matchedBrands] at h2
    split at h2 <;> simp only [List.mem_filter, beq_iff_eq] at h2 <;> tauto
  · intro db st q r hr
    simp only [Audiences.fetchAudiences] at hr
    have h2 := (mem_sortBy _ r _).mp (mem_pageSlice hr)
    simp only [Audiences.matchedAudiences] at h2
    split at h2 <;> simp only [List.mem_filter, beq_iff_eq] at h2 <;> tauto
  · intro db st q r hr
    simp only [Subcategories.loadSubcategories] at hr
    have h2 := (mem_sortBy _ r _).mp (mem_pageSlice hr)
    simp only [Subcategories.matchedSubcategories] at h2
    split at h2 <;> simp only [List.mem_filter, beq_iff_eq] at h2 <;> tauto
  · intro db st r hr
    simp only [Sellers.loadSellers] at hr
    have h2 := (mem_sortBy _ r _).mp (mem_pageSlice hr)
    simp only [Sellers.sellerMatches, List.mem_filter, Bool.and_eq_true,
      beq_iff_eq] at h2
    tauto

/-- Witness for C2 at a concrete database. -/
theorem C2_load_excludes_soft_deleted_witness :
    (⟨1, "Red", "#FF0000", "primary", 0, false, 1, 1⟩ :
        Colors.ColorRow).is_deleted = false :=
  C2_load_excludes_soft_deleted.1
    [⟨1, "Red", "#FF0000", "primary", 0, false, 1, 1⟩] initialPageState ""
    ⟨1, "Red", "#FF0000", "primary", 0, false, 1, 1⟩ (by decide)

/-- C3: soft delete is an update setting `is_deleted := true`, never a
physical delete.  For the colors and subcategories screens: the handler
issues exactly one update request (no delete), keeps the table size, the
following load excludes the id, and a direct lookup still returns the row,
now with `is_deleted = true` and every other field unchanged. -/
theorem C3_soft_delete_frame :
    (∀ (db : List Colors.ColorRow) (cid : Nat),
        (Colors.handleDeleteColor db cid).1.length = db.length ∧
        (Colors.handleDeleteColor db cid).2 =
          [Req.updateQ "colors" [("is_deleted", Value.bool true)]] ∧
        (∀ (st : PageState) (q : String) (r : Colors.ColorRow),
            r ∈ (Colors.fetchColors (Colors.handleDeleteColor db cid).1 st q).1 →
            r.id ≠ cid) ∧
        (∀ row : Colors.ColorRow,
            db.find? (fun r => r.id == cid) = some row →
            (Colors.handleDeleteColor db cid).1.find? (fun r => r.id == cid) =
              some { row with is_deleted := true })) ∧
    (∀ (db : List Subcategories.SubcategoryRow) (sid : Nat),
        (Subcategories.handleDeleteSubcategory db sid).1.length = db.length ∧
        (Subcategories.handleDeleteSubcategory db sid).2 =
          [Req.updateQ "subcategories" [("is_deleted", Value.bool true)]] ∧
        (∀ (st : PageState) (q : String) (r : Subcategories.SubcategoryRow),
            r ∈ (Subcategories.loadSubcategories
                   (Subcategories.handleDeleteSubcategory db sid).1 st q).1 →
            r.id ≠ sid) ∧
        (∀ row : Subcategories.SubcategoryRow,
            db.find? (fun r => r.id == sid) = some row →
            (Subcategories.handleDeleteSubcategory db sid).1.find?
                (fun r => r.id == sid) =
              some { row with is_deleted := true })) := by
  constructor
  · intro db cid
    refine ⟨by simp [Colors.handleDeleteColor], rfl, ?_, ?_⟩
    · intro st q r hr
      have hdel := C2_load_excludes_soft_deleted.1 _ st q r hr
      simp only [Colors.fetchColors] at hr
      have h2 := (mem_sortBy _ r _).mp (mem_pageSlice hr)
      have hmem : r ∈ (Colors.handleDeleteColor db cid).1 := by
        simp only [Colors.matchedColors] at h2
        split at h2 <;> simp only [List.mem_filter] at h2 <;> tauto
      simp only [Colors.handleDeleteColor, List.mem_map] at hmem
      rcases hmem with ⟨s, _, hfs⟩
      by_cases hs : (s.id == cid) = true
      · rw [if_pos hs] at hfs
        rw [← hfs] at hdel
        simp at hdel
      · rw [if_neg hs] at hfs
        rw [← hfs]
        simpa using hs
    · intro row h
      have := find?_map_of_pred_invariant
        (fun r : Colors.ColorRow => r.id == cid)
        (fun r : Colors.ColorRow =>
          if r.id == cid then { r with is_deleted := true } else r)
        (fun a => by by_cases h1 : (a.id == cid) = true <;> simp [h1]) h
      have hrow : (row.id == cid) = true := by
        have := List.find?_some h
        simpa using this
      simpa [Colors.handleDeleteColor, hrow] using this
  · intro db sid
    refine ⟨by simp [Subcategories.handleDeleteSubcategory], rfl, ?_, ?_⟩
    · intro st q r hr
      have hdel := C2_load_excludes_soft_deleted.2.2.2.1 _ st q r hr
      simp only [Subcategories.loadSubcategories] at hr
      have h2 := (mem_sortBy _ r _).mp (mem_pageSlice hr)
      have hmem : r ∈ (Subcategories.handleDeleteSubcategory db sid).1 := by
        simp only [Subcategories.matchedSubcategories] at h2
        split at h2 <;> simp only [List.mem_filter] at h2 <;> tauto
      simp only [Subcategories.handleDeleteSubcategory, List.mem_map] at hmem
      rcases hmem with ⟨s, _, hfs⟩
      by_cases hs : (s.id == sid) = true
      · rw [if_pos hs] at hfs
        rw [← hfs] at hdel
        simp at hdel
      · rw [if_neg hs] at hfs
        rw [← hfs]
        simpa using hs
    · intro row h
      have := find?_map_of_pred_invariant
        (fun r : Subcategories.SubcategoryRow => r.id == sid)
        (fun r : Subcategories.SubcategoryRow =>
          if r.id == sid then { r with is_deleted := true } else r)
        (fun a => by by_cases h1 : (a.id == sid) = true <;> simp [h1]) h
      have hrow : (row.id == sid) = true := by
        have := List.find?_some h
        simpa using this
      simpa [Subcategories.handleDeleteSubcategory, hrow] using this

/-- Witness for C3 at a concrete one-row database. -/
theorem C3_soft_delete_frame_witness :
    (Colors.handleDeleteColor
        [⟨1, "Red", "#FF0000", "primary", 0, false, 1, 1⟩] 1).1.find?
      (fun r => r.id == 1) =
      some ⟨1, "Red", "#FF0000", "primary", 0, true, 1, 1⟩ :=
  (C3_soft_delete_frame.1
      [⟨1, "Red", "#FF0000", "primary", 0, false, 1, 1⟩] 1).2.2.2
    ⟨1, "Red", "#FF0000", "primary", 0, false, 1, 1⟩ (by decide)

/-- Modelled from the spec: the hex-code shape `#RGB` / `#RRGGBB` — a leading
hash, then exactly three or exactly six characters, each a hex digit. -/
def hexSpecFormat (s : String) : Prop :=
  ∃ rest : List Char, s.data = '#' :: rest ∧
    (rest.length = 3 ∨ rest.length = 6) ∧ ∀ c ∈ rest, Colors.isHexDigitChar c = true

/-- C9: `validateHexCode` accepts exactly the strings of shape `#RGB` or
`#RRGGBB`; the five sample strings behave as claimed; and an invalid hex code
makes add and edit abort before issuing any network request, leaving the
database untouched. -/
theorem C9_hex_validation :
    (∀ s : String, Colors.validateHexCode s = true ↔ hexSpecFormat s) ∧
    Colors.validateHexCode "#FFF" = true ∧
    Colors.validateHexCode "#ffffff" = true ∧
    Colors.validateHexCode "FFFFFF" = false ∧
    Colors.validateHexCode "#GGGGGG" = false ∧
    Colors.validateHexCode "#12345" = false ∧
    (∀ (db : List Colors.ColorRow) (draft : Colors.NewColor) (fid now : Nat),
        (jsTrim draft.name).data.isEmpty = false →
        (jsTrim draft.hex_code).data.isEmpty = false →
        Colors.validateHexCode (jsTrim draft.hex_code) = false →
        Colors.handleAddColor db draft fid now = (Outcome.invalidHex, db, [])) ∧
    (∀ (db : List Colors.ColorRow) (sel : Colors.ColorRow) (now : Nat),
        (jsTrim sel.name).data.isEmpty = false →
        (jsTrim sel.hex_code).data.isEmpty = false →
        Colors.validateHexCode (jsTrim sel.hex_code) = false →
        Colors.handleEditColor db sel now = (Outcome.invalidHex, db, [])) := by
  refine ⟨?_, by decide, by decide, by decide, by decide, by decide, ?_, ?_⟩
  · intro s
    rcases s with ⟨data⟩
    cases data with
    | nil => simp [Colors.validateHexCode, hexSpecFormat]
    | cons c rest =>
        simp only [Colors.validateHexCode, hexSpecFormat, Bool.and_eq_true,
          Bool.or_eq_true, beq_iff_eq, List.all_eq_true]
        constructor
        · rintro ⟨⟨rfl, hlen⟩, hall⟩
          exact ⟨rest, rfl, by omega, hall⟩
        · rintro ⟨rest2, heq, hlen, hall⟩
          injection heq with h1 h2
          subst h1; subst h2
          exact ⟨⟨rfl, by omega⟩, hall⟩
  · intro db draft fid now hn hh hv
    simp [Colors.handleAddColor, hn, hh, hv]
  · intro db sel now hn hh hv
    simp [Colors.handleEditColor, hn, hh, hv]

/-- Witness for C9: a concrete draft with a malformed hex code is rejected by
add and edit with no request issued. -/
theorem C9_hex_validation_witness :
    Colors.handleAddColor [] ⟨"Red", "#12345"⟩ 1 1 =
      (Outcome.invalidHex, [], []) ∧
    Colors.handleEditColor [] ⟨5, "Red", "#GGGGGG", "primary", 0, false, 0, 0⟩
        7 = (Outcome.invalidHex, [], []) :=
  ⟨C9_hex_validation.2.2.2.2.2.2.1 [] ⟨"Red", "#12345"⟩ 1 1
      (by decide) (by decide) (by decide),
   C9_hex_validation.2.2.2.2.2.2.2 []
      ⟨5, "Red", "#GGGGGG", "primary", 0, false, 0, 0⟩ 7
      (by decide) (by decide) (by decide)⟩

/-- C10: `totalPages` is `Math.ceil(count/10)` with no lower clamp, so a load
matching zero rows sets `totalPages = 0` while `currentPage` keeps its
previous value (initialised to 1), breaking `currentPage ≤ totalPages` even
though both counters start out consistent at (1, 1).  Shown for the colors
screen and the sellers screen. -/
theorem C10_total_pages_no_clamp :
    initialPageState = { currentPage := 1, totalPages := 1 } ∧
    totalPagesOf 0 = 0 ∧
    (∀ (db : List Colors.ColorRow) (st : PageState) (q : String),
        (Colors.fetchColors db st q).2.currentPage = st.currentPage ∧
        (Colors.fetchColors db st q).2.totalPages =
          totalPagesOf (Colors.matchedColors db q).length) ∧
    (∀ (db : List Colors.ColorRow) (st : PageState) (q : String),
        (Colors.matchedColors db q).length = 0 → 1 ≤ st.currentPage →
        (Colors.fetchColors db st q).2.totalPages = 0 ∧
        ¬ ((Colors.fetchColors db st q).2.currentPage ≤
            (Colors.fetchColors db st q).2.totalPages)) ∧
    (∀ (db : List Sellers.SellerRow) (st : PageState),
        (Sellers.sellerMatches db).length = 0 → 1 ≤ st.currentPage →
        (Sellers.loadSellers db st).1.2.totalPages = 0 ∧
        (Sellers.loadSellers db st).1.2.currentPage = st.currentPage ∧
        ¬ ((Sellers.loadSellers db st).1.2.currentPage ≤
            (Sellers.loadSellers db st).1.2.totalPages)) := by
  refine ⟨rfl, rfl, ?_, ?_, ?_⟩
  · intro db st q
    exact ⟨rfl, rfl⟩
  · intro db st q h0 h1
    constructor
    · simp [Colors.fetchColors, h0, totalPagesOf, itemsPerPage]
    · simp only [Colors.fetchColors]
      simp [h0, totalPagesOf, itemsPerPage]
      omega
  · intro db st h0 h1
    refine ⟨?_, rfl, ?_⟩
    · simp [Sellers.loadSellers, h0, totalPagesOf, itemsPerPage]
    · simp only [Sellers.loadSellers]
      simp [h0, totalPagesOf, itemsPerPage]
      omega

/-- Witness for C10: an empty colors table and an empty sellers table leave
`currentPage = 1 > totalPages = 0` after a load. -/
theorem C10_total_pages_no_clamp_witness :
    ((Colors.fetchColors [] initialPageState "").2.totalPages = 0 ∧
      ¬ ((Colors.fetchColors [] initialPageState "").2.currentPage ≤
          (Colors.fetchColors [] initialPageState "").2.totalPages)) ∧
    ((Sellers.loadSellers [] initialPageState).1.2.totalPages = 0 ∧
      (Sellers.loadSellers [] initialPageState).1.2.currentPage = 1 ∧
      ¬ ((Sellers.loadSellers [] initialPageState).1.2.currentPage ≤
          (Sellers.loadSellers [] initialPageState).1.2.totalPages)) :=
  ⟨C10_total_pages_no_clamp.2.2.2.1 [] initialPageState "" (by decide)
      (by decide),
   C10_total_pages_no_clamp.2.2.2.2 [] initialPageState (by decide)
      (by decide)⟩

/-- C1 fails on the code: the colors page's duplicate pre-check matches on
`name` alone and the add modal has no category input (the insert carries no
`category`, so the database default `primary` applies).  After adding
`Red/#FF0000`, the second add of `Red/#AA0000` fails with the duplicate-name
error as claimed — but a third add of the same name, however the user intends
to categorize it (the claim says `pastel`), also fails with the
duplicate-name error instead of succeeding. -/
theorem C1_counterexample :
    (Colors.handleAddColor [] ⟨"Red", "#FF0000"⟩ 1 1).1 = Outcome.success ∧
    (Colors.handleAddColor
        (Colors.handleAddColor [] ⟨"Red", "#FF0000"⟩ 1 1).2.1
        ⟨"Red", "#AA0000"⟩ 2 2).1 = Outcome.duplicateName ∧
    ¬ ((Colors.handleAddColor
          (Colors.handleAddColor [] ⟨"Red", "#FF0000"⟩ 1 1).2.1
          ⟨"Red", "#AA0000"⟩ 3 3).1 = Outcome.success) := by
  decide

/-- C1 amended: Color uniqueness in the client is scoped to the name alone,
not to (name, category): whenever exactly one non-deleted row carries the
trimmed draft name — whatever its category — the add reports the duplicate
error, issues no insert and leaves the database unchanged; and every
successful add stores the row with the database default category `primary`,
because the page cannot send a category. -/
theorem C1_color_uniqueness_scope_amended :
    (∀ (db : List Colors.ColorRow) (draft : Colors.NewColor) (fid now : Nat),
        (jsTrim draft.name).data.isEmpty = false →
        (jsTrim draft.hex_code).data.isEmpty = false →
        Colors.validateHexCode (jsTrim draft.hex_code) = true →
        (db.filter (fun r =>
            r.name == jsTrim draft.name && r.is_deleted == false)).length = 1 →
        Colors.handleAddColor db draft fid now =
          (Outcome.duplicateName, db, [Req.selectQ "colors"])) ∧
    (∀ (db : List Colors.ColorRow) (draft : Colors.NewColor) (fid now : Nat),
        (Colors.handleAddColor db draft fid now).1 = Outcome.success →
        ((Colors.handleAddColor db draft fid now).2.1).getLast? =
          some { id := fid, name := jsTrim draft.name,
                 hex_code := jsTrim draft.hex_code, category := "primary",
                 display_order := 0, is_deleted := false,
                 created_at := now, updated_at := now }) := by
  constructor
  · intro db draft fid now hn hh hv hdup
    have hdup2 : (List.filter
        (fun r => r.name == jsTrim draft.name && !r.is_deleted) db).length = 1 := by
      simpa using hdup
    simp [Colors.handleAddColor, hn, hh, hv, hdup2]
  · intro db draft fid now hsucc
    simp only [Colors.handleAddColor] at hsucc ⊢
    cases h1 : (jsTrim draft.name).data.isEmpty with
    | true => simp [h1] at hsucc
    | false =>
    cases h2 : (jsTrim draft.hex_code).data.isEmpty with
    | true => simp [h1, h2] at hsucc
    | false =>
    cases h3 : Colors.validateHexCode (jsTrim draft.hex_code) with
    | false => simp [h1, h2, h3] at hsucc
    | true =>
    by_cases h4 : (List.filter
        (fun r => r.name == jsTrim draft.name && !r.is_deleted) db).length = 1
    · simp [h1, h2, h3, h4] at hsucc
    · simp [h1, h2, h3, h4]

/-- Witness for C1: a database holding `Red` in category `pastel` blocks
adding another `Red`, and a successful add lands in category `primary`. -/
theorem C1_color_uniqueness_scope_amended_witness :
    Colors.handleAddColor
        [⟨1, "Red", "#FFB6C1", "pastel", 1, false, 1, 1⟩]
        ⟨"Red", "#FF0000"⟩ 2 2 =
      (Outcome.duplicateName,
       [⟨1, "Red", "#FFB6C1", "pastel", 1, false, 1, 1⟩],
       [Req.selectQ "colors"]) ∧
    (Colors.handleAddColor [] ⟨"Blue", "#0000FF"⟩ 1 1).2.1.getLast? =
      some ⟨1, "Blue", "#0000FF", "primary", 0, false, 1, 1⟩ :=
  ⟨C1_color_uniqueness_scope_amended.1
      [⟨1, "Red", "#FFB6C1", "pastel", 1, false, 1, 1⟩] ⟨"Red", "#FF0000"⟩ 2 2
      (by decide) (by decide) (by decide) (by decide),
   C1_color_uniqueness_scope_amended.2 [] ⟨"Blue", "#0000FF"⟩ 1 1 (by decide)⟩

/-- C4 fails on the code: the second brands screen's `handleAddBrand`
performs no duplicate pre-check at all — with a non-deleted `Nike` already
stored, adding `Nike` again reports success, issues an insert request and
grows the table. -/
theorem C4_counterexample :
    (BrandsSimple.handleAddBrand [⟨1, "Nike", "", "", false, 1, 1⟩]
        ⟨"Nike", "", ""⟩ 2 2).1 = Outcome.success ∧
    ¬ ((BrandsSimple.handleAddBrand [⟨1, "Nike", "", "", false, 1, 1⟩]
          ⟨"Nike", "", ""⟩ 2 2).2.2 = []) ∧
    ¬ ((BrandsSimple.handleAddBrand [⟨1, "Nike", "", "", false, 1, 1⟩]
          ⟨"Nike", "", ""⟩ 2 2).2.1 = [⟨1, "Nike", "", "", false, 1, 1⟩]) := by
  decide

/-- C4 amended: the screens with a duplicate pre-check (the colors screen and
the paginated brands screen) report the conflict and issue no insert when
exactly one non-deleted row already carries the trimmed name (the pre-check
is a single-row lookup); the second brands screen has no pre-check and always
issues its insert, never reporting a duplicate. -/
theorem C4_add_duplicate_precheck_amended :
    (∀ (db : List Colors.ColorRow) (draft : Colors.NewColor) (fid now : Nat),
        (jsTrim draft.name).data.isEmpty = false →
        (jsTrim draft.hex_code).data.isEmpty = false →
        Colors.validateHexCode (jsTrim draft.hex_code) = true →
        (db.filter (fun r =>
            r.name == jsTrim draft.name && r.is_deleted == false)).length = 1 →
        (Colors.handleAddColor db draft fid now).1 = Outcome.duplicateName ∧
        (Colors.handleAddColor db draft fid now).2.1 = db ∧
        ∀ fs, ¬ (Req.insertQ "colors" fs ∈
                  (Colors.handleAddColor db draft fid now).2.2)) ∧
    (∀ (db : List Brands.BrandRow) (draft : Brands.NewBrand) (fid now : Nat),
        (jsTrim draft.name).data.isEmpty = false →
        (db.filter (fun r =>
            r.name == jsTrim draft.name && r.is_deleted == false)).length = 1 →
        (Brands.handleAddBrand db draft fid now).1 = Outcome.duplicateName ∧
        (Brands.handleAddBrand db draft fid now).2.1 = db ∧
        ∀ fs, ¬ (Req.insertQ "brands" fs ∈
                  (Brands.handleAddBrand db draft fid now).2.2)) ∧
    (∀ (db : List Brands.BrandRow) (draft : Brands.NewBrand) (fid now : Nat),
        (BrandsSimple.handleAddBrand db draft fid now).1 ≠
          Outcome.duplicateName ∧
        ((BrandsSimple.handleAddBrand db draft fid now).2.1).length =
          db.length + 1 ∧
        Req.insertQ "brands"
            [("name", Value.str draft.name),
             ("description", Value.str draft.description),
             ("logo_url", Value.str draft.logo_url),
             ("is_deleted", Value.bool false)] ∈
          (BrandsSimple.handleAddBrand db draft fid now).2.2) := by
  refine ⟨?_, ?_, ?_⟩
  · intro db draft fid now hn hh hv hdup
    have hdup2 : (List.filter
        (fun r => r.name == jsTrim draft.name && !r.is_deleted) db).length = 1 := by
      simpa using hdup
    simp [Colors.handleAddColor, hn, hh, hv, hdup2]
  · intro db draft fid now hn hdup
    have hdup2 : (List.filter
        (fun r => r.name == jsTrim draft.name && !r.is_deleted) db).length = 1 := by
      simpa using hdup
    simp [Brands.handleAddBrand, hn, hdup2]
  · intro db draft fid now
    refine ⟨by simp [BrandsSimple.handleAddBrand], ?_, ?_⟩
    · simp [BrandsSimple.handleAddBrand]
    · simp [BrandsSimple.handleAddBrand]

/-- Witness for C4 at concrete databases with one duplicate each. -/
theorem C4_add_duplicate_precheck_amended_witness :
    (Colors.handleAddColor [⟨1, "Red", "#FF0000", "primary", 0, false, 1, 1⟩]
        ⟨"Red", "#AA0000"⟩ 2 2).1 = Outcome.duplicateName ∧
    (Brands.handleAddBrand [⟨1, "Nike", "", "", false, 1, 1⟩]
        ⟨"Nike", "", ""⟩ 2 2).1 = Outcome.duplicateName ∧
    ((BrandsSimple.handleAddBrand [⟨1, "Nike", "", "", false, 1, 1⟩]
        ⟨"Nike", "", ""⟩ 2 2).2.1).length = 2 :=
  ⟨(C4_add_duplicate_precheck_amended.1
      [⟨1, "Red", "#FF0000", "primary", 0, false, 1, 1⟩] ⟨"Red", "#AA0000"⟩ 2 2
      (by decide) (by decide) (by decide) (by decide)).1,
   (C4_add_duplicate_precheck_amended.2.1 [⟨1, "Nike", "", "", false, 1, 1⟩]
      ⟨"Nike", "", ""⟩ 2 2 (by decide) (by decide)).1,
   (C4_add_duplicate_precheck_amended.2.2 [⟨1, "Nike", "", "", false, 1, 1⟩]
      ⟨"Nike", "", ""⟩ 2 2).2.1⟩

/-- C5 fails on the code: `handleEditSeller` sends an update with only
`name`, `gender` and `age` — no `updated_at` field at all. -/
theorem C5_counterexample :
    (Sellers.handleEditSeller
        [⟨1, "Old", "other", 20, "seller", "active", false, 1, 1⟩]
        ⟨1, "a@b.c", "New", "other", 21⟩).2 =
      [Req.updateQ "users"
        [("name", Value.str "New"), ("gender", Value.str "other"),
         ("age", Value.nat 21)]] ∧
    ¬ ("updated_at" ∈
        (Sellers.sellerUpdateFields ⟨1, "a@b.c", "New", "other", 21⟩).map
          Prod.fst) := by
  decide

/-- C5 amended: the colors, brands and subcategories edit handlers send
`updated_at = now` in their update payload, but the sellers edit handler
never does. -/
theorem C5_updated_at_amended :
    (∀ (db : List Colors.ColorRow) (sel : Colors.ColorRow) (now : Nat),
        (Colors.handleEditColor db sel now).1 = Outcome.success →
        ∃ fs, Req.updateQ "colors" fs ∈ (Colors.handleEditColor db sel now).2.2 ∧
          ("updated_at", Value.nat now) ∈ fs) ∧
    (∀ (db : List Brands.BrandRow) (sel : Brands.BrandRow) (now : Nat),
        (Brands.handleEditBrand db sel now).1 = Outcome.success →
        ∃ fs, Req.updateQ "brands" fs ∈ (Brands.handleEditBrand db sel now).2.2 ∧
          ("updated_at", Value.nat now) ∈ fs) ∧
    (∀ (db : List Subcategories.SubcategoryRow)
        (sel : Subcategories.SubcategoryRow) (now : Nat),
        (Subcategories.handleEditSubcategory db sel now).1 = Outcome.success →
        ∃ fs, Req.updateQ "subcategories" fs ∈
            (Subcategories.handleEditSubcategory db sel now).2.2 ∧
          ("updated_at", Value.nat now) ∈ fs) ∧
    (∀ formData : Sellers.SellerFormData,
        ¬ ("updated_at" ∈ (Sellers.sellerUpdateFields formData).map Prod.fst)) := by
  refine ⟨?_, ?_, ?_, ?_⟩
  · intro db sel now hsucc
    simp only [Colors.handleEditColor] at hsucc ⊢
    cases h1 : (jsTrim sel.name).data.isEmpty with
    | true => simp [h1] at hsucc
    | false =>
    cases h2 : (jsTrim sel.hex_code).data.isEmpty with
    | true => simp [h1, h2] at hsucc
    | false =>
    cases h3 : Colors.validateHexCode (jsTrim sel.hex_code) with
    | false => simp [h1, h2, h3] at hsucc
    | true =>
    by_cases h4 : (List.filter
        (fun r => r.name == jsTrim sel.name && !r.is_deleted && r.id != sel.id)
        db).length = 1
    · simp [h1, h2, h3, h4] at hsucc
    · refine ⟨[("name", Value.str (jsTrim sel.name)),
               ("hex_code", Value.str (jsTrim sel.hex_code)),
               ("updated_at", Value.nat now)], ?_, by simp⟩
      simp [h1, h2, h3, h4]
  · intro db sel now hsucc
    simp only [Brands.handleEditBrand] at hsucc ⊢
    cases h1 : (jsTrim sel.name).data.isEmpty with
    | true => simp [h1] at hsucc
    | false =>
    by_cases h4 : (List.filter
        (fun r => r.name == jsTrim sel.name && !r.is_deleted && r.id != sel.id)
        db).length = 1
    · simp [h1, h4] at hsucc
    · refine ⟨[("name", Value.str (jsTrim sel.name)),
               ("description", Value.str (jsTrim sel.description)),
               ("logo_url", Value.str (jsTrim sel.logo_url)),
               ("updated_at", Value.nat now)], ?_, by simp⟩
      simp [h1, h4]
  · intro db sel now hsucc
    simp only [Subcategories.handleEditSubcategory] at hsucc ⊢
    cases h1 : (jsTrim sel.name).data.isEmpty with
    | true => simp [h1] at hsucc
    | false =>
    cases h2 : sel.category_id == 0 with
    | true => simp [h1, h2] at hsucc
    | false =>
    by_cases h4 : (List.filter
        (fun r => r.name == jsTrim sel.name &&
          r.category_id == sel.category_id && !r.is_deleted && r.id != sel.id)
        db).length = 1
    · simp [h1, h2, h4] at hsucc
    · refine ⟨[("name", Value.str (jsTrim sel.name)),
               ("category_id", Value.nat sel.category_id),
               ("updated_at", Value.nat now)], ?_, by simp⟩
      simp [h1, h2, h4]
  · intro formData
    simp [Sellers.sellerUpdateFields]

/-- Witness for C5 at concrete edits. -/
theorem C5_updated_at_amended_witness :
    (∃ fs, Req.updateQ "colors" fs ∈
        (Colors.handleEditColor []
          ⟨1, "Red", "#FF0000", "primary", 0, false, 1, 1⟩ 9).2.2 ∧
        ("updated_at", Value.nat 9) ∈ fs) ∧
    (∃ fs, Req.updateQ "subcategories" fs ∈
        (Subcategories.handleEditSubcategory []
          ⟨1, "Sneakers", 2, false, 1, 1⟩ 9).2.2 ∧
        ("updated_at", Value.nat 9) ∈ fs) ∧
    ¬ ("updated_at" ∈
        (Sellers.sellerUpdateFields ⟨1, "a@b.c", "New", "other", 21⟩).map
          Prod.fst) :=
  ⟨C5_updated_at_amended.1 [] ⟨1, "Red", "#FF0000", "primary", 0, false, 1, 1⟩
      9 (by decide),
   C5_updated_at_amended.2.2.1 [] ⟨1, "Sneakers", 2, false, 1, 1⟩ 9 (by decide),
   C5_updated_at_amended.2.2.2 ⟨1, "a@b.c", "New", "other", 21⟩⟩

/-- C7 fails on the code: the first Image Picker implementation
(`handleFile`) checks the size limit before the MIME type, so a 2 MiB
non-image file is rejected with the size error, not the claimed type
error. -/
theorem C7_counterexample :
    ImageUpload.handleFile ImageUpload.defaultMaxSize ⟨"text/plain", 2097152⟩ =
      [ImageUpload.PickerEvent.errorEv ImageUpload.Reject.tooLarge] ∧
    ¬ (ImageUpload.handleFile ImageUpload.defaultMaxSize
          ⟨"text/plain", 2097152⟩ =
        [ImageUpload.PickerEvent.errorEv ImageUpload.Reject.notImage]) := by
  decide

/-- C7 amended: the file holds two implementations with opposite check
orders — `validateAndProcessFile` rejects a non-image type first, while
`handleFile` rejects an oversized file first; in both, a file failing either
check produces exactly one error and no file-selected event, and a file
passing both produces exactly the file-selected event. -/
theorem C7_picker_validation_amended :
    ∀ (m : Nat) (f : ImageUpload.JsFile),
      (ImageUpload.startsWithImage f.type = false →
        ImageUpload.validateAndProcessFile m f =
          [ImageUpload.PickerEvent.errorEv ImageUpload.Reject.notImage]) ∧
      (m < f.size →
        ImageUpload.handleFile m f =
          [ImageUpload.PickerEvent.errorEv ImageUpload.Reject.tooLarge]) ∧
      (ImageUpload.startsWithImage f.type = true → f.size ≤ m →
        ImageUpload.handleFile m f = [ImageUpload.PickerEvent.fileSelectEv] ∧
        ImageUpload.validateAndProcessFile m f =
          [ImageUpload.PickerEvent.fileSelectEv]) ∧
      ((ImageUpload.startsWithImage f.type = false ∨ m < f.size) →
        (∃ r1, ImageUpload.handleFile m f =
            [ImageUpload.PickerEvent.errorEv r1]) ∧
        (∃ r2, ImageUpload.validateAndProcessFile m f =
            [ImageUpload.PickerEvent.errorEv r2])) := by
  intro m f
  refine ⟨?_, ?_, ?_, ?_⟩
  · intro ht
    simp [ImageUpload.validateAndProcessFile, ht]
  · intro hs
    simp [ImageUpload.handleFile, hs]
  · intro ht hsz
    constructor
    · simp [ImageUpload.handleFile, ht, Nat.not_lt.mpr hsz]
    · simp [ImageUpload.validateAndProcessFile, ht, Nat.not_lt.mpr hsz]
  · intro hrej
    constructor
    · by_cases hs : m < f.size
      · exact ⟨ImageUpload.Reject.tooLarge, by simp [ImageUpload.handleFile, hs]⟩
      · have ht : ImageUpload.startsWithImage f.type = false := by tauto
        exact ⟨ImageUpload.Reject.notImage,
          by simp [ImageUpload.handleFile, hs, ht]⟩
    · by_cases ht : ImageUpload.startsWithImage f.type = false
      · exact ⟨ImageUpload.Reject.notImage,
          by simp [ImageUpload.validateAndProcessFile, ht]⟩
      · have ht2 : ImageUpload.startsWithImage f.type = true := by
          revert ht; cases ImageUpload.startsWithImage f.type <;> simp
        have hs : m < f.size := by tauto
        exact ⟨ImageUpload.Reject.tooLarge,
          by simp [ImageUpload.validateAndProcessFile, ht2, hs]⟩

/-- Witness for C7: a 100-byte PNG passes both implementations; a 2 MiB
non-image is rejected by both. -/
theorem C7_picker_validation_amended_witness :
    (ImageUpload.handleFile ImageUpload.defaultMaxSize ⟨"image/png", 100⟩ =
        [ImageUpload.PickerEvent.fileSelectEv] ∧
      ImageUpload.validateAndProcessFile ImageUpload.defaultMaxSize
          ⟨"image/png", 100⟩ = [ImageUpload.PickerEvent.fileSelectEv]) ∧
    ImageUpload.validateAndProcessFile ImageUpload.defaultMaxSize
        ⟨"text/plain", 2097152⟩ =
      [ImageUpload.PickerEvent.errorEv ImageUpload.Reject.notImage] :=
  ⟨(C7_picker_validation_amended ImageUpload.defaultMaxSize
      ⟨"image/png", 100⟩).2.2.1 (by decide) (by decide),
   (C7_picker_validation_amended ImageUpload.defaultMaxSize
      ⟨"text/plain", 2097152⟩).1 (by decide)⟩

/-- C8 fails on the code: `handlePageChange(p)` has no boundary guard — at
`currentPage = totalPages = 1`, calling it with `p = 0` (below 1) or `p = 5`
(above `totalPages`) issues a select request and overwrites `currentPage`. -/
theorem C8_counterexample :
    ¬ ((Colors.handlePageChange [] initialPageState "" 0).2 = []) ∧
    ¬ (((Colors.handlePageChange [] initialPageState "" 0).1.2).currentPage =
        initialPageState.currentPage) ∧
    ¬ ((Colors.handlePageChange [] initialPageState "" 5).2 = []) ∧
    ¬ (((Colors.handlePageChange [] initialPageState "" 5).1.2).currentPage =
        initialPageState.currentPage) := by
  decide

/-- C8 amended: `handlePageChange(p)` unconditionally sets `currentPage := p`
and issues a load for every `p`; the out-of-range protection lives only in
the pagination controls — on the sellers screen the Previous / Next buttons
are disabled at the boundaries (a click there changes nothing and issues no
request), and a click on an enabled button keeps `currentPage` within
`[1, totalPages]` whenever the state agrees with the table. -/
theorem C8_page_change_amended :
    (∀ (db : List Colors.ColorRow) (st : PageState) (q : String) (p : Nat),
        (Colors.handlePageChange db st q p).2 = [Req.selectQ "colors"] ∧
        ((Colors.handlePageChange db st q p).1.2).currentPage = p) ∧
    (∀ (db : List Sellers.SellerRow) (st : PageState),
        st.currentPage = 1 → Sellers.prevClick db st = (st, [])) ∧
    (∀ (db : List Sellers.SellerRow) (st : PageState),
        st.currentPage = st.totalPages → Sellers.nextClick db st = (st, [])) ∧
    (∀ (db : List Sellers.SellerRow) (st : PageState),
        1 ≤ st.currentPage → st.currentPage ≤ st.totalPages →
        st.totalPages = totalPagesOf (Sellers.sellerMatches db).length →
        (1 ≤ (Sellers.prevClick db st).1.currentPage ∧
          (Sellers.prevClick db st).1.currentPage ≤
            (Sellers.prevClick db st).1.totalPages) ∧
        (1 ≤ (Sellers.nextClick db st).1.currentPage ∧
          (Sellers.nextClick db st).1.currentPage ≤
            (Sellers.nextClick db st).1.totalPages)) := by
  refine ⟨?_, ?_, ?_, ?_⟩
  · intro db st q p
    exact ⟨rfl, rfl⟩
  · intro db st h1
    simp [Sellers.prevClick, h1]
  · intro db st h1
    simp [Sellers.nextClick, h1]
  · intro db st h1 h2 h3
    constructor
    · by_cases hp : st.currentPage = 1
      · simp [Sellers.prevClick, hp]
        omega
      · simp [Sellers.prevClick, hp, Sellers.loadSellers, ← h3]
        omega
    · by_cases hp : st.currentPage = st.totalPages
      · simp [Sellers.nextClick, hp]
        omega
      · simp [Sellers.nextClick, hp, Sellers.loadSellers, ← h3]
        omega

/-- Witness for C8: a one-seller table on page 1 of 1 — both buttons are
disabled and clicks change nothing. -/
theorem C8_page_change_amended_witness :
    Sellers.prevClick [⟨1, "n", "other", 20, "seller", "active", false, 1, 1⟩]
        initialPageState = (initialPageState, []) ∧
    Sellers.nextClick [⟨1, "n", "other", 20, "seller", "active", false, 1, 1⟩]
        initialPageState = (initialPageState, []) ∧
    1 ≤ (Sellers.prevClick
          [⟨1, "n", "other", 20, "seller", "active", false, 1, 1⟩]
          initialPageState).1.currentPage :=
  ⟨C8_page_change_amended.2.1
      [⟨1, "n", "other", 20, "seller", "active", false, 1, 1⟩]
      initialPageState (by decide),
   C8_page_change_amended.2.2.1
      [⟨1, "n", "other", 20, "seller", "active", false, 1, 1⟩]
      initialPageState (by decide),
   ((C8_page_change_amended.2.2.2
      [⟨1, "n", "other", 20, "seller", "active", false, 1, 1⟩]
      initialPageState (by decide) (by decide) (by decide)).1).1⟩
